import Mathlib

/-!
Shallow embedding of the request-admission and usage-telemetry logic of
`src/.netlify/functions/ai-proxy.js` (a Netlify serverless function), together
with proofs about the rate limiter, the usage statistics and the HTTP handler.

Modelling conventions:
* Wall-clock timestamps (`Date.now()`, milliseconds) are natural numbers.
* JavaScript objects used as string-keyed maps (`requestCounts`, and each
  `requestCounts[ip]`) are association lists.  JavaScript object keys are
  unique; lookup returns the first (hence only) binding, assignment replaces
  the first binding in place and otherwise appends a new binding at the end,
  matching JS key-insertion order.
* `now - timestamp < window` is computed with truncated natural subtraction;
  for a timestamp larger than `now` both JS (negative difference) and the
  truncated model (difference `0`) keep the entry, since every configured
  window is positive.
-/

/-- One tier of `RATE_LIMITS`: `{ max, window }` (window in milliseconds). -/
structure TierCfg where
  max : Nat
  window : Nat
deriving DecidableEq

/-- `RATE_LIMITS` from lines 4-8 of the source, in `Object.entries` order. -/
def RATE_LIMITS : List (String × TierCfg) :=
  [("minute", { max := 10, window := 60 * 1000 }),
   ("hour", { max := 50, window := 60 * 60 * 1000 }),
   ("day", { max := 200, window := 24 * 60 * 60 * 1000 })]

/-- The per-IP object `requestCounts[ip]`: period name ↦ timestamp array. -/
abbrev Entry := List (String × List Nat)

/-- The `requestCounts` object: IP ↦ per-IP entry. -/
abbrev RequestCounts := List (String × Entry)

/-- Reading `requestCounts[ip][period]`; an absent key behaves as the empty
array (the source initialises absent keys to `[]` before every use). -/
def lookupPeriod : Entry → String → List Nat
  | [], _ => []
  | (q, l) :: rest, p => if q = p then l else lookupPeriod rest p

/-- Assignment `requestCounts[ip][period] = l` on a unique-keyed JS object:
replace the binding in place, or append a fresh key at the end. -/
def setPeriod : Entry → String → List Nat → Entry
  | [], p, l => [(p, l)]
  | (q, l0) :: rest, p, l =>
    if q = p then (p, l) :: rest else (q, l0) :: setPeriod rest p l

/-- Reading `requestCounts[ip]` (`none` models JS `undefined`). -/
def lookupIp : RequestCounts → String → Option Entry
  | [], _ => none
  | (q, e) :: rest, ip => if q = ip then some e else lookupIp rest ip

/-- Assignment `requestCounts[ip] = e`. -/
def setIp : RequestCounts → String → Entry → RequestCounts
  | [], ip, e => [(ip, e)]
  | (q, e0) :: rest, ip, e =>
    if q = ip then (ip, e) :: rest else (q, e0) :: setIp rest ip e

/-- `requestCounts[ip]` read with absent keys behaving as the empty object. -/
def entryOf (rc : RequestCounts) (ip : String) : Entry :=
  (lookupIp rc ip).getD []

/-- The prune `arr.filter(timestamp => now - timestamp < window)`. -/
def pruneList (now window : Nat) (l : List Nat) : List Nat :=
  l.filter (fun t => now - t < window)

/-- Decision value of `checkRateLimit`:
`{allowed: true}` or `{allowed: false, period, limit}`. -/
inductive RateLimitResult where
  | allowed
  | denied (period : String) (limit : Nat)
deriving DecidableEq

/-- The `for (const [period, config] of Object.entries(RATE_LIMITS))` loop of
`checkRateLimit` (lines 48-61): per tier, initialise the period key if absent,
prune it, store the pruned array, and return a denial as soon as the pruned
length reaches the tier's `max`. -/
def checkLoop (now : Nat) : List (String × TierCfg) → Entry → Entry × Option (String × Nat)
  | [], e => (e, none)
  | (period, cfg) :: rest, e =>
    let pruned := pruneList now cfg.window (lookupPeriod e period)
    let e1 := setPeriod e period pruned
    if cfg.max ≤ pruned.length then (e1, some (period, cfg.max))
    else checkLoop now rest e1

/-- The `for (const period of Object.keys(RATE_LIMITS))` recording loop of
`checkRateLimit` (lines 64-66): push `now` onto every period's array. -/
def recordAll (now : Nat) (tiers : List (String × TierCfg)) (e : Entry) : Entry :=
  tiers.foldl (fun acc pc => setPeriod acc pc.fst (lookupPeriod acc pc.fst ++ [now])) e

/-- `if (!requestCounts[ip]) { requestCounts[ip] = {}; }` (lines 43-45):
create the per-IP object when the key is absent (`{}` is truthy in JS, so an
existing entry is kept). -/
def rcInit (rc : RequestCounts) (ip : String) : RequestCounts :=
  match lookupIp rc ip with
  | some _ => rc
  | none => rc ++ [(ip, [])]

/-- `checkRateLimit(ip)` (lines 39-69), acting on an explicit ledger state and
an explicit clock value and returning the updated ledger with the decision. -/
def checkRateLimit (rc : RequestCounts) (ip : String) (now : Nat) :
    RequestCounts × RateLimitResult :=
  let rc1 := rcInit rc ip
  match checkLoop now RATE_LIMITS (entryOf rc1 ip) with
  | (e1, some (period, limit)) => (setIp rc1 ip e1, .denied period limit)
  | (e1, none) => (setIp rc1 ip (recordAll now RATE_LIMITS e1), .allowed)

/-- `Math.max(...Object.values(RATE_LIMITS).map(r => r.window))` (line 23). -/
def maxWindow : Nat :=
  (RATE_LIMITS.map (fun pc => pc.snd.window)).foldl Nat.max 0

/-- `cleanupOldEntries()` (lines 21-36): filter every stored period array by
the MAXIMUM window, then delete every IP whose arrays are all empty. -/
def cleanupOldEntries (rc : RequestCounts) (now : Nat) : RequestCounts :=
  (rc.map (fun kv =>
      (kv.fst, kv.snd.map (fun pl => (pl.fst, pl.snd.filter (fun t => now - t < maxWindow))))))
    |>.filter (fun kv => ! kv.snd.all (fun pl => pl.snd.length == 0))

section AssocLemmas

@[simp] theorem lookupPeriod_setPeriod_self (e : Entry) (p : String) (l : List Nat) :
    lookupPeriod (setPeriod e p l) p = l := by
  induction e with
  | nil => simp [setPeriod, lookupPeriod]
  | cons kv rest ih =>
    obtain ⟨q, l0⟩ := kv
    by_cases h : q = p <;> simp [setPeriod, lookupPeriod, h, ih]

theorem lookupPeriod_setPeriod_ne (e : Entry) {p q : String} (h : p ≠ q) (l : List Nat) :
    lookupPeriod (setPeriod e p l) q = lookupPeriod e q := by
  induction e with
  | nil => simp [setPeriod, lookupPeriod, h]
  | cons kv rest ih =>
    obtain ⟨r, l0⟩ := kv
    by_cases hr : r = p
    · subst hr; simp [setPeriod, lookupPeriod, h]
    · simp [setPeriod, lookupPeriod, hr, ih]

@[simp] theorem lookupIp_setIp_self (rc : RequestCounts) (ip : String) (e : Entry) :
    lookupIp (setIp rc ip e) ip = some e := by
  induction rc with
  | nil => simp [setIp, lookupIp]
  | cons kv rest ih =>
    obtain ⟨q, e0⟩ := kv
    by_cases h : q = ip <;> simp [setIp, lookupIp, h, ih]

theorem lookupIp_setIp_ne (rc : RequestCounts) {ip q : String} (h : ip ≠ q) (e : Entry) :
    lookupIp (setIp rc ip e) q = lookupIp rc q := by
  induction rc with
  | nil => simp [setIp, lookupIp, h]
  | cons kv rest ih =>
    obtain ⟨r, e0⟩ := kv
    by_cases hr : r = ip
    · subst hr; simp [setIp, lookupIp, h]
    · simp [setIp, lookupIp, hr, ih]

@[simp] theorem entryOf_setIp_self (rc : RequestCounts) (ip : String) (e : Entry) :
    entryOf (setIp rc ip e) ip = e := by
  simp [entryOf]

theorem lookupIp_append_self (rc : RequestCounts) (ip : String) (e : Entry) :
    lookupIp (rc ++ [(ip, e)]) ip = some ((lookupIp rc ip).getD e) := by
  induction rc with
  | nil => simp [lookupIp]
  | cons kv rest ih =>
    obtain ⟨q, e0⟩ := kv
    by_cases h : q = ip <;> simp [lookupIp, h, ih]

theorem lookupIp_append_ne (rc : RequestCounts) {ip q : String} (h : q ≠ ip) (e : Entry) :
    lookupIp (rc ++ [(ip, e)]) q = lookupIp rc q := by
  induction rc with
  | nil => simp [lookupIp, Ne.symm h]
  | cons kv rest ih =>
    obtain ⟨r, e0⟩ := kv
    by_cases hr : r = q <;> simp [lookupIp, hr, ih]

theorem mem_setIp (rc : RequestCounts) (ip : String) (e : Entry) :
    ∀ kv ∈ setIp rc ip e, kv ∈ rc ∨ kv = (ip, e) := by
  induction rc with
  | nil => simp [setIp]
  | cons kv0 rest ih =>
    obtain ⟨q, e0⟩ := kv0
    by_cases h : q = ip
    · intro kv hkv
      simp only [setIp, h, if_pos rfl] at hkv
      rcases List.mem_cons.mp hkv with h1 | h1
      · exact Or.inr h1
      · exact Or.inl (List.mem_cons_of_mem _ h1)
    · intro kv hkv
      simp only [setIp, h, if_neg h] at hkv
      rcases List.mem_cons.mp hkv with h1 | h1
      · exact Or.inl (List.mem_cons.mpr (Or.inl h1))
      · rcases ih kv h1 with h2 | h2
        · exact Or.inl (List.mem_cons_of_mem _ h2)
        · exact Or.inr h2

theorem lookupIp_mem {rc : RequestCounts} {ip : String} {e : Entry}
    (h : lookupIp rc ip = some e) : (ip, e) ∈ rc := by
  induction rc with
  | nil => simp [lookupIp] at h
  | cons kv rest ih =>
    obtain ⟨q, e0⟩ := kv
    by_cases hq : q = ip
    · subst hq
      simp only [lookupIp, if_pos rfl] at h
      injection h with h
      subst h; exact List.mem_cons_self _ _
    · simp only [lookupIp, if_neg hq] at h
      exact List.mem_cons_of_mem _ (ih h)

end AssocLemmas

section CheckRateLimitSpec

theorem entryOf_rcInit (rc : RequestCounts) (ip : String) :
    entryOf (rcInit rc ip) ip = entryOf rc ip := by
  unfold rcInit
  cases hl : lookupIp rc ip with
  | some e => rfl
  | none => simp [entryOf, lookupIp_append_self, hl]

theorem lookupIp_rcInit_ne (rc : RequestCounts) {ip q : String} (h : q ≠ ip) :
    lookupIp (rcInit rc ip) q = lookupIp rc q := by
  unfold rcInit
  cases hl : lookupIp rc ip with
  | some e => rfl
  | none => exact lookupIp_append_ne rc h _

theorem mem_rcInit (rc : RequestCounts) (ip : String) :
    ∀ kv ∈ rcInit rc ip, kv ∈ rc ∨ kv = (ip, ([] : Entry)) := by
  unfold rcInit
  cases hl : lookupIp rc ip with
  | some e => exact fun kv hkv => Or.inl hkv
  | none =>
    intro kv hkv
    rcases List.mem_append.mp hkv with h1 | h1
    · exact Or.inl h1
    · simp at h1; exact Or.inr h1

@[simp] theorem lookupPeriod_set_mh (e : Entry) (l : List Nat) :
    lookupPeriod (setPeriod e "minute" l) "hour" = lookupPeriod e "hour" :=
  lookupPeriod_setPeriod_ne e (by decide) l

@[simp] theorem lookupPeriod_set_md (e : Entry) (l : List Nat) :
    lookupPeriod (setPeriod e "minute" l) "day" = lookupPeriod e "day" :=
  lookupPeriod_setPeriod_ne e (by decide) l

@[simp] theorem lookupPeriod_set_hm (e : Entry) (l : List Nat) :
    lookupPeriod (setPeriod e "hour" l) "minute" = lookupPeriod e "minute" :=
  lookupPeriod_setPeriod_ne e (by decide) l

@[simp] theorem lookupPeriod_set_hd (e : Entry) (l : List Nat) :
    lookupPeriod (setPeriod e "hour" l) "day" = lookupPeriod e "day" :=
  lookupPeriod_setPeriod_ne e (by decide) l

@[simp] theorem lookupPeriod_set_dm (e : Entry) (l : List Nat) :
    lookupPeriod (setPeriod e "day" l) "minute" = lookupPeriod e "minute" :=
  lookupPeriod_setPeriod_ne e (by decide) l

@[simp] theorem lookupPeriod_set_dh (e : Entry) (l : List Nat) :
    lookupPeriod (setPeriod e "day" l) "hour" = lookupPeriod e "hour" :=
  lookupPeriod_setPeriod_ne e (by decide) l

/-- The minute-tier array of `ip` after the prune on lines 54-55. -/
def prunedMinute (rc : RequestCounts) (ip : String) (now : Nat) : List Nat :=
  pruneList now (60 * 1000) (lookupPeriod (entryOf rc ip) "minute")

/-- The hour-tier array of `ip` after the prune on lines 54-55. -/
def prunedHour (rc : RequestCounts) (ip : String) (now : Nat) : List Nat :=
  pruneList now (60 * 60 * 1000) (lookupPeriod (entryOf rc ip) "hour")

/-- The day-tier array of `ip` after the prune on lines 54-55. -/
def prunedDay (rc : RequestCounts) (ip : String) (now : Nat) : List Nat :=
  pruneList now (24 * 60 * 60 * 1000) (lookupPeriod (entryOf rc ip) "day")

theorem checkRateLimit_den_minute (rc : RequestCounts) (ip : String) (now : Nat)
    (hm : 10 ≤ (prunedMinute rc ip now).length) :
    checkRateLimit rc ip now =
      (setIp (rcInit rc ip) ip
        (setPeriod (entryOf rc ip) "minute" (prunedMinute rc ip now)),
       .denied "minute" 10) := by
  have he := entryOf_rcInit rc ip
  simp only [checkRateLimit, RATE_LIMITS, checkLoop, he]
  rw [if_pos (by simpa [prunedMinute] using hm)]
  simp [prunedMinute]

theorem checkRateLimit_den_hour (rc : RequestCounts) (ip : String) (now : Nat)
    (hm : (prunedMinute rc ip now).length < 10)
    (hh : 50 ≤ (prunedHour rc ip now).length) :
    checkRateLimit rc ip now =
      (setIp (rcInit rc ip) ip
        (setPeriod (setPeriod (entryOf rc ip) "minute" (prunedMinute rc ip now))
          "hour" (prunedHour rc ip now)),
       .denied "hour" 50) := by
  have he := entryOf_rcInit rc ip
  simp only [checkRateLimit, RATE_LIMITS, checkLoop, he]
  rw [if_neg (by simpa [prunedMinute] using Nat.not_le.mpr hm)]
  simp only [lookupPeriod_set_mh]
  rw [if_pos (by simpa [prunedHour] using hh)]
  simp [prunedMinute, prunedHour]

theorem checkRateLimit_den_day (rc : RequestCounts) (ip : String) (now : Nat)
    (hm : (prunedMinute rc ip now).length < 10)
    (hh : (prunedHour rc ip now).length < 50)
    (hd : 200 ≤ (prunedDay rc ip now).length) :
    checkRateLimit rc ip now =
      (setIp (rcInit rc ip) ip
        (setPeriod
          (setPeriod (setPeriod (entryOf rc ip) "minute" (prunedMinute rc ip now))
            "hour" (prunedHour rc ip now))
          "day" (prunedDay rc ip now)),
       .denied "day" 200) := by
  have he := entryOf_rcInit rc ip
  simp only [checkRateLimit, RATE_LIMITS, checkLoop, he]
  rw [if_neg (by simpa [prunedMinute] using Nat.not_le.mpr hm)]
  simp only [lookupPeriod_set_mh, lookupPeriod_set_md]
  rw [if_neg (by simpa [prunedHour] using Nat.not_le.mpr hh)]
  simp only [lookupPeriod_set_hd]
  rw [if_pos (by simpa [prunedDay] using hd)]
  simp [prunedMinute, prunedHour, prunedDay]

theorem checkRateLimit_allowed_eq (rc : RequestCounts) (ip : String) (now : Nat)
    (hm : (prunedMinute rc ip now).length < 10)
    (hh : (prunedHour rc ip now).length < 50)
    (hd : (prunedDay rc ip now).length < 200) :
    checkRateLimit rc ip now =
      (setIp (rcInit rc ip) ip
        (setPeriod
          (setPeriod
            (setPeriod
              (setPeriod
                (setPeriod (setPeriod (entryOf rc ip) "minute" (prunedMinute rc ip now))
                  "hour" (prunedHour rc ip now))
                "day" (prunedDay rc ip now))
              "minute" (prunedMinute rc ip now ++ [now]))
            "hour" (prunedHour rc ip now ++ [now]))
          "day" (prunedDay rc ip now ++ [now])),
       .allowed) := by
  have he := entryOf_rcInit rc ip
  simp only [checkRateLimit, RATE_LIMITS, checkLoop, he]
  rw [if_neg (by simpa [prunedMinute] using Nat.not_le.mpr hm)]
  simp only [lookupPeriod_set_mh, lookupPeriod_set_md]
  rw [if_neg (by simpa [prunedHour] using Nat.not_le.mpr hh)]
  simp only [lookupPeriod_set_hd]
  rw [if_neg (by simpa [prunedDay] using Nat.not_le.mpr hd)]
  simp only [recordAll, RATE_LIMITS, List.foldl,
    lookupPeriod_setPeriod_self, lookupPeriod_set_mh, lookupPeriod_set_md,
    lookupPeriod_set_hm, lookupPeriod_set_hd, lookupPeriod_set_dm, lookupPeriod_set_dh]
  simp [prunedMinute, prunedHour, prunedDay]

end CheckRateLimitSpec

/-! ### Usage telemetry (`usageStats`, `logUsage`, `getUsageStats`) -/

/-- The `usageStats` object (lines 12-18).  The JS `Set` of unique IPs is
modelled as an insertion-ordered duplicate-free list. -/
structure UsageStats where
  totalRequests : Nat
  uniqueIPs : List String
  startTime : Nat
  errors : Nat
  rateLimitHits : Nat
deriving DecidableEq

/-- `usageStats.uniqueIPs.add(ip)` on the list model of a JS `Set`. -/
def addUnique (l : List String) (ip : String) : List String :=
  if ip ∈ l then l else l ++ [ip]

/-- `logUsage(ip, userAgent, prompt, success)` (lines 72-90).  The `userAgent`
and `prompt` arguments feed only the dropped `console.log` side effect. -/
def logUsage (s : UsageStats) (ip userAgent : String) (prompt : Option String)
    (success : Bool) : UsageStats :=
  { s with
    totalRequests := s.totalRequests + 1
    uniqueIPs := addUnique s.uniqueIPs ip
    errors := if success then s.errors else s.errors + 1 }

/-- JS `Math.round` on a finite value: round half toward positive infinity. -/
def jsRound (q : ℚ) : ℤ := ⌊q + 1 / 2⌋

/-- `uptimeHours = (now - usageStats.startTime) / (1000 * 60 * 60)` (line 95),
as an exact rational. -/
def uptimeHoursOf (startTime now : Nat) : ℚ :=
  ((now : ℚ) - (startTime : ℚ)) / (1000 * 60 * 60)

/-- The raw quotient `usageStats.totalRequests / uptimeHours` inside line 103.
Note there is no guard on the divisor; rationals model division by zero as
zero, where JS produces the non-finite `NaN`/`Infinity`. -/
def requestsPerHourRaw (total : Nat) (uptimeHours : ℚ) : ℚ :=
  (total : ℚ) / uptimeHours

/-- The record returned by `getUsageStats()` (lines 97-105). -/
structure StatsSnapshot where
  totalRequests : Nat
  uniqueIPs : Nat
  errors : Nat
  rateLimitHits : Nat
  uptimeHours : ℚ
  requestsPerHour : ℚ
  activeIPs : Nat
deriving DecidableEq

/-- `getUsageStats()` (lines 93-106), reading the process state and the clock. -/
def getUsageStats (s : UsageStats) (rc : RequestCounts) (now : Nat) : StatsSnapshot :=
  let uptimeHours := uptimeHoursOf s.startTime now
  { totalRequests := s.totalRequests
    uniqueIPs := s.uniqueIPs.length
    errors := s.errors
    rateLimitHits := s.rateLimitHits
    uptimeHours := (jsRound (uptimeHours * 10) : ℚ) / 10
    requestsPerHour := (jsRound (requestsPerHourRaw s.totalRequests uptimeHours * 10) : ℚ) / 10
    activeIPs := rc.length }

/-! ### The HTTP handler (`exports.handler`, lines 108-235) -/

/-- The JS value bound to `prompt` after destructuring the parsed body: either
a string, or any non-string value carrying only its truthiness. -/
inductive PromptVal where
  | str (s : String)
  | nonString (truthy : Bool)
deriving DecidableEq

/-- JS truthiness of the `prompt` field (`undefined` and `""` are falsy). -/
def promptTruthy : Option PromptVal → Bool
  | none => false
  | some (.str s) => ! (s == "")
  | some (.nonString t) => t

/-- `typeof prompt === 'string'`. -/
def promptIsString : Option PromptVal → Bool
  | some (.str _) => true
  | _ => false

/-- The test `!prompt || typeof prompt !== 'string'` (line 170). -/
def promptInvalid (p : Option PromptVal) : Bool :=
  ! promptTruthy p || ! promptIsString p

/-- `prompt.length` (only read on string prompts). -/
def promptLength : Option PromptVal → Nat
  | some (.str s) => s.length
  | _ => 0

/-- The string content of the prompt (feeds only the dropped log call). -/
def promptText : Option PromptVal → Option String
  | some (.str s) => some s
  | _ => none

/-- The `conversation` object: each field is `some` when the JS value is an
array (modelled by its elements) and `none` when absent or not an array. -/
structure ConvVal where
  past_user_inputs : Option (List String)
  generated_responses : Option (List String)
deriving DecidableEq

/-- Is the field an array (`Array.isArray`)? -/
def isArr : Option (List String) → Bool
  | some _ => true
  | none => false

/-- `.length` of an array field (only read on arrays). -/
def arrLen : Option (List String) → Nat
  | some l => l.length
  | none => 0

/-- The test on lines 180-185: `conversation && (!Array.isArray(...) || ... ||
length > 10 || length > 10)`; `none` models an absent/falsy `conversation`. -/
def convInvalid : Option ConvVal → Bool
  | none => false
  | some c =>
    ! isArr c.past_user_inputs || ! isArr c.generated_responses
      || decide (10 < arrLen c.past_user_inputs)
      || decide (10 < arrLen c.generated_responses)

/-- The object produced by `JSON.parse(event.body || '{}')` after
destructuring; an absent body parses to `{}`, i.e. both fields `none`. -/
structure BodyObj where
  prompt : Option PromptVal
  conversation : Option ConvVal
deriving DecidableEq

/-- JS truthiness of an optional string (`undefined` and `""` are falsy);
used for `process.env.HUGGINGFACE_API_KEY`. -/
def strTruthy : Option String → Bool
  | none => false
  | some s => ! (s == "")

/-- Header lookup `event.headers[name]`. -/
def hGet : List (String × String) → String → Option String
  | [], _ => none
  | (k, v) :: rest, name => if k = name then some v else hGet rest name

/-- JS `value || fallback` on an optional string. -/
def jsOrString (v : Option String) (fallback : String) : String :=
  match v with
  | some s => if s = "" then fallback else s
  | none => fallback

/-- Lines 137-140: `headers['x-forwarded-for'] || headers['client-ip'] ||
headers['x-real-ip'] || 'unknown'`. -/
def extractIp (h : List (String × String)) : String :=
  jsOrString (hGet h "x-forwarded-for")
    (jsOrString (hGet h "client-ip")
      (jsOrString (hGet h "x-real-ip") "unknown"))

/-- Line 141: `event.headers['user-agent'] || 'unknown'`. -/
def userAgentOf (h : List (String × String)) : String :=
  jsOrString (hGet h "user-agent") "unknown"

/-- Does `sub` occur at the head of `s`? (helper for `String.includes`). -/
def startsWithChars : List Char → List Char → Bool
  | [], _ => true
  | _ :: _, [] => false
  | a :: as, b :: bs => a == b && startsWithChars as bs

/-- Does `sub` occur anywhere in `s`? (helper for `String.includes`). -/
def containsChars (sub : List Char) : List Char → Bool
  | [] => startsWithChars sub []
  | c :: cs => startsWithChars sub (c :: cs) || containsChars sub cs

/-- JS `path.includes(sub)` (line 122). -/
def pathIncludes (path sub : String) : Bool :=
  containsChars sub.toList path.toList

/-- `RATE_LIMITS[period].window` (line 160). -/
def windowOfPeriod (p : String) : Nat :=
  match RATE_LIMITS.find? (fun kv => kv.fst == p) with
  | some kv => kv.snd.window
  | none => 0

/-- Outcome of the downstream HuggingFace call (lines 209-218): a JSON payload
without an `error` field, a payload whose `error` field is truthy, or a thrown
exception from `fetch`/`response.json()`. -/
inductive UpstreamOutcome where
  | ok (data : String)
  | errorField
  | throws
deriving DecidableEq

/-- The JSON body of a handler response (headers are the same constant on
every response and are omitted). -/
inductive ResponseBody where
  | empty
  | errorMsg (error : String)
  | rateLimited (error : String) (retryAfter : Nat)
  | stats (s : StatsSnapshot)
  | passthrough (data : String)
deriving DecidableEq

/-- A handler response: status code and JSON body. -/
structure HandlerResponse where
  statusCode : Nat
  body : ResponseBody
deriving DecidableEq

/-- The inbound event, with `JSON.parse(event.body || '{}')` represented by
its result (`none` models a body on which `JSON.parse` throws). -/
structure HandlerEvent where
  httpMethod : String
  path : String
  headers : List (String × String)
  parsedBody : Option BodyObj
deriving DecidableEq

/-- The module-level mutable state: `requestCounts` and `usageStats`. -/
structure ProcState where
  requestCounts : RequestCounts
  usageStats : UsageStats
deriving DecidableEq

/-- Lines 143-146: run `cleanupOldEntries()` when `usageStats.totalRequests`
is a multiple of 100, and return the ledger the rate-limit check then reads. -/
def ledgerBeforeCheck (st : ProcState) (now : Nat) : RequestCounts :=
  if st.usageStats.totalRequests % 100 = 0 then cleanupOldEntries st.requestCounts now
  else st.requestCounts

/-- `exports.handler` (lines 108-235) as a state transformer.  The several
`Date.now()` reads within one invocation are modelled by the single clock
value `now`; the API key and the downstream outcome are explicit inputs. -/
def handler (st : ProcState) (ev : HandlerEvent) (apiKey : Option String)
    (upstream : UpstreamOutcome) (now : Nat) : ProcState × HandlerResponse :=
  if ev.httpMethod = "OPTIONS" then
    (st, { statusCode := 200, body := .empty })
  else if ev.httpMethod = "GET" ∧ pathIncludes ev.path "/stats" then
    (st, { statusCode := 200, body := .stats (getUsageStats st.usageStats st.requestCounts now) })
  else if ev.httpMethod ≠ "POST" then
    (st, { statusCode := 405, body := .errorMsg "Method not allowed" })
  else
    let ip := extractIp ev.headers
    let ua := userAgentOf ev.headers
    let rc0 := ledgerBeforeCheck st now
    match checkRateLimit rc0 ip now with
    | (rc1, .denied period limit) =>
      ({ requestCounts := rc1,
         usageStats := { st.usageStats with rateLimitHits := st.usageStats.rateLimitHits + 1 } },
       { statusCode := 429,
         body := .rateLimited
           ("Rate limit exceeded. Maximum " ++ toString limit ++ " requests per " ++ period ++ ".")
           (windowOfPeriod period / 1000) })
    | (rc1, .allowed) =>
      match ev.parsedBody with
      | none =>
        ({ requestCounts := rc1, usageStats := logUsage st.usageStats ip ua none false },
         { statusCode := 500, body := .errorMsg "Internal server error" })
      | some body =>
        if promptInvalid body.prompt then
          ({ requestCounts := rc1,
             usageStats := logUsage st.usageStats ip ua (promptText body.prompt) false },
           { statusCode := 400, body := .errorMsg "Invalid or missing prompt" })
        else if 500 < promptLength body.prompt then
          ({ requestCounts := rc1,
             usageStats := logUsage st.usageStats ip ua (promptText body.prompt) false },
           { statusCode := 400, body := .errorMsg "Prompt too long (max 500 characters)" })
        else if convInvalid body.conversation then
          ({ requestCounts := rc1,
             usageStats := logUsage st.usageStats ip ua (promptText body.prompt) false },
           { statusCode := 400, body := .errorMsg "Invalid conversation history" })
        else if ! strTruthy apiKey then
          ({ requestCounts := rc1,
             usageStats := logUsage st.usageStats ip ua (promptText body.prompt) false },
           { statusCode := 500, body := .errorMsg "AI service not configured" })
        else
          match upstream with
          | .throws =>
            ({ requestCounts := rc1, usageStats := logUsage st.usageStats ip ua none false },
             { statusCode := 500, body := .errorMsg "Internal server error" })
          | .errorField =>
            ({ requestCounts := rc1,
               usageStats := logUsage st.usageStats ip ua (promptText body.prompt) false },
             { statusCode := 502, body := .errorMsg "AI service error" })
          | .ok data =>
            ({ requestCounts := rc1,
               usageStats := logUsage st.usageStats ip ua (promptText body.prompt) true },
             { statusCode := 200, body := .passthrough data })

/-- The module-level state at cold start (lines 11-18), with `startTime`
instantiated to clock value `0`. -/
def initState : ProcState :=
  { requestCounts := []
    usageStats :=
      { totalRequests := 0, uniqueIPs := [], startTime := 0, errors := 0, rateLimitHits := 0 } }

/-! ### Derived facts about `checkRateLimit` outcomes -/

theorem checkRateLimit_allowed_bounds {rc : RequestCounts} {ip : String} {now : Nat}
    (h : (checkRateLimit rc ip now).2 = .allowed) :
    (prunedMinute rc ip now).length < 10 ∧ (prunedHour rc ip now).length < 50 ∧
      (prunedDay rc ip now).length < 200 := by
  by_cases hm : 10 ≤ (prunedMinute rc ip now).length
  · rw [checkRateLimit_den_minute rc ip now hm] at h; simp at h
  · by_cases hh : 50 ≤ (prunedHour rc ip now).length
    · rw [checkRateLimit_den_hour rc ip now (Nat.not_le.mp hm) hh] at h; simp at h
    · by_cases hd : 200 ≤ (prunedDay rc ip now).length
      · rw [checkRateLimit_den_day rc ip now (Nat.not_le.mp hm) (Nat.not_le.mp hh) hd] at h
        simp at h
      · exact ⟨Nat.not_le.mp hm, Nat.not_le.mp hh, Nat.not_le.mp hd⟩

theorem checkRateLimit_allowed_lookup {rc : RequestCounts} {ip : String} {now : Nat}
    (h : (checkRateLimit rc ip now).2 = .allowed) :
    lookupPeriod (entryOf (checkRateLimit rc ip now).1 ip) "minute"
        = prunedMinute rc ip now ++ [now] ∧
    lookupPeriod (entryOf (checkRateLimit rc ip now).1 ip) "hour"
        = prunedHour rc ip now ++ [now] ∧
    lookupPeriod (entryOf (checkRateLimit rc ip now).1 ip) "day"
        = prunedDay rc ip now ++ [now] := by
  obtain ⟨hm, hh, hd⟩ := checkRateLimit_allowed_bounds h
  rw [checkRateLimit_allowed_eq rc ip now hm hh hd]
  simp

theorem checkRateLimit_denied_cases {rc : RequestCounts} {ip : String} {now : Nat}
    {period : String} {limit : Nat}
    (h : (checkRateLimit rc ip now).2 = .denied period limit) :
    (period = "minute" ∧ limit = 10 ∧ 10 ≤ (prunedMinute rc ip now).length)
    ∨ (period = "hour" ∧ limit = 50 ∧ (prunedMinute rc ip now).length < 10 ∧
        50 ≤ (prunedHour rc ip now).length)
    ∨ (period = "day" ∧ limit = 200 ∧ (prunedMinute rc ip now).length < 10 ∧
        (prunedHour rc ip now).length < 50 ∧ 200 ≤ (prunedDay rc ip now).length) := by
  by_cases hm : 10 ≤ (prunedMinute rc ip now).length
  · rw [checkRateLimit_den_minute rc ip now hm] at h
    simp only [RateLimitResult.denied.injEq] at h
    exact Or.inl ⟨h.1.symm, h.2.symm, hm⟩
  · by_cases hh : 50 ≤ (prunedHour rc ip now).length
    · rw [checkRateLimit_den_hour rc ip now (Nat.not_le.mp hm) hh] at h
      simp only [RateLimitResult.denied.injEq] at h
      exact Or.inr (Or.inl ⟨h.1.symm, h.2.symm, Nat.not_le.mp hm, hh⟩)
    · by_cases hd : 200 ≤ (prunedDay rc ip now).length
      · rw [checkRateLimit_den_day rc ip now (Nat.not_le.mp hm) (Nat.not_le.mp hh) hd] at h
        simp only [RateLimitResult.denied.injEq] at h
        exact Or.inr (Or.inr ⟨h.1.symm, h.2.symm, Nat.not_le.mp hm, Nat.not_le.mp hh, hd⟩)
      · rw [checkRateLimit_allowed_eq rc ip now (Nat.not_le.mp hm) (Nat.not_le.mp hh)
          (Nat.not_le.mp hd)] at h
        simp at h

/-! ### Reachable ledger states and the per-tier length invariant -/

/-- One mutation of the `requestCounts` ledger: a `checkRateLimit` call (for
any identity and clock value) or a `cleanupOldEntries` sweep. -/
def LedgerStep (rc rc2 : RequestCounts) : Prop :=
  (∃ ip now, rc2 = (checkRateLimit rc ip now).1) ∨ (∃ now, rc2 = cleanupOldEntries rc now)

/-- Ledger states reachable from the cold-start empty ledger by any sequence
of `checkRateLimit` and `cleanupOldEntries` calls. -/
def ReachableLedger (rc : RequestCounts) : Prop :=
  Relation.ReflTransGen LedgerStep [] rc

/-- Every stored tier array of the entry respects its tier's `max`. -/
def EntryBounded (e : Entry) : Prop :=
  (lookupPeriod e "minute").length ≤ 10 ∧ (lookupPeriod e "hour").length ≤ 50 ∧
    (lookupPeriod e "day").length ≤ 200

/-- Every per-IP entry of the ledger respects the tier bounds. -/
def LedgerBounded (rc : RequestCounts) : Prop :=
  ∀ kv ∈ rc, EntryBounded kv.snd

theorem entryBounded_nil : EntryBounded [] := by
  refine ⟨?_, ?_, ?_⟩ <;> simp [lookupPeriod]

theorem ledgerBounded_entryOf {rc : RequestCounts} (hb : LedgerBounded rc) (ip : String) :
    EntryBounded (entryOf rc ip) := by
  unfold entryOf
  cases hl : lookupIp rc ip with
  | none => exact entryBounded_nil
  | some e => exact hb (ip, e) (lookupIp_mem hl)

theorem lookupPeriod_filterMap (e : Entry) (f : Nat → Bool) (p : String) :
    lookupPeriod (e.map (fun pl => (pl.fst, pl.snd.filter f))) p
      = (lookupPeriod e p).filter f := by
  induction e with
  | nil => simp [lookupPeriod]
  | cons pl rest ih =>
    obtain ⟨q, l⟩ := pl
    by_cases h : q = p <;> simp [lookupPeriod, h, ih]

theorem ledgerBounded_step {rc rc2 : RequestCounts} (hb : LedgerBounded rc)
    (hstep : LedgerStep rc rc2) : LedgerBounded rc2 := by
  have hentry : ∀ ip, EntryBounded (entryOf rc ip) := fun ip => ledgerBounded_entryOf hb ip
  rcases hstep with ⟨ip, now, hrc⟩ | ⟨now, hrc⟩
  · subst hrc
    obtain ⟨hbm, hbh, hbd⟩ := hentry ip
    have hml : (prunedMinute rc ip now).length ≤ 10 :=
      le_trans (List.length_filter_le _ _) hbm
    have hhl : (prunedHour rc ip now).length ≤ 50 :=
      le_trans (List.length_filter_le _ _) hbh
    have hdl : (prunedDay rc ip now).length ≤ 200 :=
      le_trans (List.length_filter_le _ _) hbd
    have hinit : ∀ kv ∈ rcInit rc ip, EntryBounded kv.snd := by
      intro kv hkv
      rcases mem_rcInit rc ip kv hkv with h1 | h1
      · exact hb kv h1
      · rw [h1]; exact entryBounded_nil
    by_cases hm : 10 ≤ (prunedMinute rc ip now).length
    · rw [checkRateLimit_den_minute rc ip now hm]
      intro kv hkv
      rcases mem_setIp _ _ _ kv hkv with h1 | h1
      · exact hinit kv h1
      · rw [h1]
        exact ⟨by simpa using hml, by simpa using hbh, by simpa using hbd⟩
    · by_cases hh : 50 ≤ (prunedHour rc ip now).length
      · rw [checkRateLimit_den_hour rc ip now (Nat.not_le.mp hm) hh]
        intro kv hkv
        rcases mem_setIp _ _ _ kv hkv with h1 | h1
        · exact hinit kv h1
        · rw [h1]
          exact ⟨by simpa using hml, by simpa using hhl, by simpa using hbd⟩
      · by_cases hd : 200 ≤ (prunedDay rc ip now).length
        · rw [checkRateLimit_den_day rc ip now (Nat.not_le.mp hm) (Nat.not_le.mp hh) hd]
          intro kv hkv
          rcases mem_setIp _ _ _ kv hkv with h1 | h1
          · exact hinit kv h1
          · rw [h1]
            exact ⟨by simpa using hml, by simpa using hhl, by simpa using hdl⟩
        · rw [checkRateLimit_allowed_eq rc ip now (Nat.not_le.mp hm) (Nat.not_le.mp hh)
            (Nat.not_le.mp hd)]
          intro kv hkv
          rcases mem_setIp _ _ _ kv hkv with h1 | h1
          · exact hinit kv h1
          · rw [h1]
            refine ⟨?_, ?_, ?_⟩ <;> simp
            · omega
            · omega
            · omega
  · subst hrc
    intro kv hkv
    have hkv2 := List.mem_of_mem_filter hkv
    rcases List.mem_map.mp hkv2 with ⟨kv0, hkv0, hmap⟩
    have hb0 := hb kv0 hkv0
    rw [← hmap]
    obtain ⟨h1, h2, h3⟩ := hb0
    refine ⟨?_, ?_, ?_⟩ <;> simp only [lookupPeriod_filterMap]
    · exact le_trans (List.length_filter_le _ _) h1
    · exact le_trans (List.length_filter_le _ _) h2
    · exact le_trans (List.length_filter_le _ _) h3

theorem reachable_ledgerBounded {rc : RequestCounts} (h : ReachableLedger rc) :
    LedgerBounded rc := by
  induction h with
  | refl => intro kv hkv; simp at hkv
  | tail _ hstep ih => exact ledgerBounded_step ih hstep

/-! ### Helper facts for timestamp bounds -/

theorem mem_pruneList {now w t : Nat} {l : List Nat} (h : t ∈ pruneList now w l) :
    t ∈ l ∧ now - t < w := by
  have h2 := List.mem_filter.mp h
  exact ⟨h2.1, by simpa using h2.2⟩

theorem lookupPeriod_subset (e : Entry) (p : String) :
    ∀ t ∈ lookupPeriod e p, ∃ pl ∈ e, t ∈ pl.snd := by
  induction e with
  | nil => simp [lookupPeriod]
  | cons pl rest ih =>
    obtain ⟨q, l⟩ := pl
    by_cases h : q = p
    · intro t ht
      simp only [lookupPeriod, if_pos h] at ht
      exact ⟨(q, l), List.mem_cons_self _ _, ht⟩
    · intro t ht
      simp only [lookupPeriod, if_neg h] at ht
      obtain ⟨pl0, hpl0, hmem⟩ := ih t ht
      exact ⟨pl0, List.mem_cons_of_mem _ hpl0, hmem⟩

/-- A deterministic scenario: `n` successive `checkRateLimit` calls for the
identity `"a"`, all at clock value `0`, starting from the empty ledger. -/
def runCalls (n : Nat) : RequestCounts :=
  (List.range n).foldl (fun rc _ => (checkRateLimit rc "a" 0).1) []

theorem runCalls_reachable (n : Nat) : ReachableLedger (runCalls n) := by
  induction n with
  | zero => exact Relation.ReflTransGen.refl
  | succ k ih =>
    have h : runCalls (k + 1) = (checkRateLimit (runCalls k) "a" 0).1 := by
      simp [runCalls, List.range_succ]
    rw [h]
    exact Relation.ReflTransGen.tail ih (Or.inl ⟨"a", 0, rfl⟩)

/-- C4: if `checkRateLimit` returns a denial, no timestamp is appended to any
tier's sequence for that identity in that call — every stored tier array after
the call is a sublist of the corresponding array before the call — and when
the minute tier denies, the hour and day arrays are literally unchanged. -/
theorem claim_C4 (rc : RequestCounts) (ip : String) (now : Nat) (period : String) (limit : Nat)
    (h : (checkRateLimit rc ip now).2 = .denied period limit) :
    (∀ p, p = "minute" ∨ p = "hour" ∨ p = "day" →
      List.Sublist (lookupPeriod (entryOf (checkRateLimit rc ip now).1 ip) p)
        (lookupPeriod (entryOf rc ip) p))
    ∧ (period = "minute" →
        lookupPeriod (entryOf (checkRateLimit rc ip now).1 ip) "hour"
            = lookupPeriod (entryOf rc ip) "hour"
        ∧ lookupPeriod (entryOf (checkRateLimit rc ip now).1 ip) "day"
            = lookupPeriod (entryOf rc ip) "day") := by
  rcases checkRateLimit_denied_cases h with ⟨hp, _, hm⟩ | ⟨hp, _, hm, hh⟩ | ⟨hp, _, hm, hh, hd⟩
  · rw [checkRateLimit_den_minute rc ip now hm]
    constructor
    · intro p hp3
      rcases hp3 with h3 | h3 | h3 <;> subst h3 <;> simp [prunedMinute, pruneList]
    · intro _
      constructor <;> simp
  · rw [checkRateLimit_den_hour rc ip now hm hh]
    constructor
    · intro p hp3
      rcases hp3 with h3 | h3 | h3 <;> subst h3 <;>
        simp [prunedMinute, prunedHour, pruneList]
    · intro h2
      rw [hp] at h2; simp at h2
  · rw [checkRateLimit_den_day rc ip now hm hh hd]
    constructor
    · intro p hp3
      rcases hp3 with h3 | h3 | h3 <;> subst h3 <;>
        simp [prunedMinute, prunedHour, prunedDay, pruneList]
    · intro h2
      rw [hp] at h2; simp at h2

/-- Witness for C4 at a concrete denial: the eleventh call for `"a"`. -/
theorem claim_C4_witness :
    (checkRateLimit (runCalls 10) "a" 0).2 = .denied "minute" 10 ∧
    List.Sublist (lookupPeriod (entryOf (checkRateLimit (runCalls 10) "a" 0).1 "a") "minute")
      (lookupPeriod (entryOf (runCalls 10) "a") "minute") ∧
    lookupPeriod (entryOf (checkRateLimit (runCalls 10) "a" 0).1 "a") "hour"
        = lookupPeriod (entryOf (runCalls 10) "a") "hour" ∧
    lookupPeriod (entryOf (checkRateLimit (runCalls 10) "a" 0).1 "a") "day"
        = lookupPeriod (entryOf (runCalls 10) "a") "day" :=
  ⟨by decide,
    (claim_C4 (runCalls 10) "a" 0 "minute" 10 (by decide)).1 "minute" (Or.inl rfl),
    ((claim_C4 (runCalls 10) "a" 0 "minute" 10 (by decide)).2 rfl).1,
    ((claim_C4 (runCalls 10) "a" 0 "minute" 10 (by decide)).2 rfl).2⟩

/-- C5: in every reachable ledger state, immediately after a denial the
identity's stored (pruned) count for the violating tier equals exactly the
tier's `max`, and the reported limit is that tier's configured `max`. -/
theorem claim_C5 (rc : RequestCounts) (ip : String) (now : Nat) (period : String) (limit : Nat)
    (hreach : ReachableLedger rc)
    (h : (checkRateLimit rc ip now).2 = .denied period limit) :
    (lookupPeriod (entryOf (checkRateLimit rc ip now).1 ip) period).length = limit
    ∧ ((period = "minute" ∧ limit = 10) ∨ (period = "hour" ∧ limit = 50) ∨
        (period = "day" ∧ limit = 200)) := by
  have hb := reachable_ledgerBounded hreach
  obtain ⟨hbm, hbh, hbd⟩ := ledgerBounded_entryOf hb ip
  have hml : (prunedMinute rc ip now).length
      ≤ (lookupPeriod (entryOf rc ip) "minute").length := by
    simpa [prunedMinute, pruneList] using List.length_filter_le _ _
  have hhl : (prunedHour rc ip now).length
      ≤ (lookupPeriod (entryOf rc ip) "hour").length := by
    simpa [prunedHour, pruneList] using List.length_filter_le _ _
  have hdl : (prunedDay rc ip now).length
      ≤ (lookupPeriod (entryOf rc ip) "day").length := by
    simpa [prunedDay, pruneList] using List.length_filter_le _ _
  rcases checkRateLimit_denied_cases h with ⟨hp, hl, hm⟩ | ⟨hp, hl, hm, hh⟩ | ⟨hp, hl, hm, hh, hd⟩
  · subst hp; subst hl
    rw [checkRateLimit_den_minute rc ip now hm]
    refine ⟨?_, Or.inl ⟨rfl, rfl⟩⟩
    simp only [entryOf_setIp_self, lookupPeriod_setPeriod_self]
    omega
  · subst hp; subst hl
    rw [checkRateLimit_den_hour rc ip now hm hh]
    refine ⟨?_, Or.inr (Or.inl ⟨rfl, rfl⟩)⟩
    simp only [entryOf_setIp_self, lookupPeriod_setPeriod_self]
    omega
  · subst hp; subst hl
    rw [checkRateLimit_den_day rc ip now hm hh hd]
    refine ⟨?_, Or.inr (Or.inr ⟨rfl, rfl⟩)⟩
    simp only [entryOf_setIp_self, lookupPeriod_setPeriod_self]
    omega

/-- Witness for C5: a reachable state (ten admitted calls) whose eleventh call
denies with a stored minute count of exactly 10. -/
theorem claim_C5_witness :
    (checkRateLimit (runCalls 10) "a" 0).2 = .denied "minute" 10 ∧
    ((lookupPeriod (entryOf (checkRateLimit (runCalls 10) "a" 0).1 "a") "minute").length = 10
      ∧ ((("minute" : String) = "minute" ∧ (10 : Nat) = 10) ∨
          (("minute" : String) = "hour" ∧ (10 : Nat) = 50) ∨
          (("minute" : String) = "day" ∧ (10 : Nat) = 200))) :=
  ⟨by decide, claim_C5 (runCalls 10) "a" 0 "minute" 10 (runCalls_reachable 10) (by decide)⟩

/-! ### Claim C2: timestamp bounds after the two prunes -/

/-- Concrete state for the C2 counterexample: one IP with a two-minute-old
minute-tier timestamp. -/
def rcC2 : RequestCounts := [("a", [("minute", [0]), ("hour", [0]), ("day", [0])])]

/-- Counterexample to C2 as stated: after the sweep `cleanupOldEntries` at
`now = 120000`, the minute-tier sequence still holds the timestamp `0`, which
lies outside `[now - 60000, now]` — the sweep prunes by the maximum window
(the day tier's), not each tier's own window. -/
theorem claim_C2_counterexample :
    lookupPeriod (entryOf (cleanupOldEntries rcC2 120000) "a") "minute" = [0] ∧
    ¬ (∀ t ∈ lookupPeriod (entryOf (cleanupOldEntries rcC2 120000) "a") "minute",
        120000 - 60 * 1000 ≤ t) := by
  constructor
  · decide
  · intro h
    have := h 0 (by decide)
    omega

/-- C2 as amended: after a prune inside `checkRateLimit`, the pruned tier's
remaining timestamps lie within `[now - window, now]` for that tier's own
window (given that recorded timestamps are not in the future); after a
`cleanupOldEntries` sweep, remaining timestamps lie within
`[now - maxWindow, now]` only, where `maxWindow` is the largest (day) window. -/
theorem claim_C2 (rc : RequestCounts) (ip : String) (now : Nat)
    (hle : ∀ pl ∈ entryOf rc ip, ∀ t ∈ pl.snd, t ≤ now) :
    ((checkRateLimit rc ip now).2 = .allowed →
      ∀ p w, ((p, w) = ("minute", 60 * 1000) ∨ (p, w) = ("hour", 60 * 60 * 1000) ∨
          (p, w) = ("day", 24 * 60 * 60 * 1000)) →
      ∀ t ∈ lookupPeriod (entryOf (checkRateLimit rc ip now).1 ip) p,
        now - w ≤ t ∧ t ≤ now)
    ∧ (∀ period limit, (checkRateLimit rc ip now).2 = .denied period limit →
        ∀ t ∈ lookupPeriod (entryOf (checkRateLimit rc ip now).1 ip) period,
          now - windowOfPeriod period ≤ t ∧ t ≤ now)
    ∧ (∀ rc2 : RequestCounts, (∀ kv ∈ rc2, ∀ pl ∈ kv.snd, ∀ t ∈ pl.snd, t ≤ now) →
        ∀ kv ∈ cleanupOldEntries rc2 now, ∀ pl ∈ kv.snd, ∀ t ∈ pl.snd,
          now - maxWindow ≤ t ∧ t ≤ now) := by
  have hOld : ∀ p, ∀ t ∈ lookupPeriod (entryOf rc ip) p, t ≤ now := by
    intro p t ht
    obtain ⟨pl, hpl, hmem⟩ := lookupPeriod_subset _ p t ht
    exact hle pl hpl t hmem
  refine ⟨?_, ?_, ?_⟩
  · intro hall p w hpw t ht
    obtain ⟨hm2, hh2, hd2⟩ := checkRateLimit_allowed_lookup hall
    rcases hpw with hpw | hpw | hpw <;> rw [Prod.mk.injEq] at hpw <;>
      obtain ⟨rfl, rfl⟩ := hpw
    · rw [hm2] at ht
      rcases List.mem_append.mp ht with h1 | h1
      · obtain ⟨hbase, hwin⟩ := mem_pruneList (by simpa [prunedMinute] using h1)
        have := hOld "minute" t hbase
        omega
      · simp at h1; omega
    · rw [hh2] at ht
      rcases List.mem_append.mp ht with h1 | h1
      · obtain ⟨hbase, hwin⟩ := mem_pruneList (by simpa [prunedHour] using h1)
        have := hOld "hour" t hbase
        omega
      · simp at h1; omega
    · rw [hd2] at ht
      rcases List.mem_append.mp ht with h1 | h1
      · obtain ⟨hbase, hwin⟩ := mem_pruneList (by simpa [prunedDay] using h1)
        have := hOld "day" t hbase
        omega
      · simp at h1; omega
  · intro period limit hden t ht
    rcases checkRateLimit_denied_cases hden with ⟨hp, _, hm⟩ | ⟨hp, _, hm, hh⟩ | ⟨hp, _, hm, hh, hd⟩
    · subst hp
      rw [checkRateLimit_den_minute rc ip now hm] at ht
      simp only [entryOf_setIp_self, lookupPeriod_setPeriod_self] at ht
      obtain ⟨hbase, hwin⟩ := mem_pruneList (by simpa [prunedMinute] using ht)
      have := hOld "minute" t hbase
      have hw : windowOfPeriod "minute" = 60 * 1000 := by decide
      omega
    · subst hp
      rw [checkRateLimit_den_hour rc ip now hm hh] at ht
      simp only [entryOf_setIp_self, lookupPeriod_setPeriod_self] at ht
      obtain ⟨hbase, hwin⟩ := mem_pruneList (by simpa [prunedHour] using ht)
      have := hOld "hour" t hbase
      have hw : windowOfPeriod "hour" = 60 * 60 * 1000 := by decide
      omega
    · subst hp
      rw [checkRateLimit_den_day rc ip now hm hh hd] at ht
      simp only [entryOf_setIp_self, lookupPeriod_setPeriod_self] at ht
      obtain ⟨hbase, hwin⟩ := mem_pruneList (by simpa [prunedDay] using ht)
      have := hOld "day" t hbase
      have hw : windowOfPeriod "day" = 24 * 60 * 60 * 1000 := by decide
      omega
  · intro rc2 hle2 kv hkv pl hpl t ht
    have hkv2 := List.mem_of_mem_filter hkv
    rcases List.mem_map.mp hkv2 with ⟨kv0, hkv0, hmap⟩
    rw [← hmap] at hpl
    rcases List.mem_map.mp hpl with ⟨pl0, hpl0, hmap2⟩
    rw [← hmap2] at ht
    have h2 := List.mem_filter.mp ht
    have hwin : now - t < maxWindow := by simpa using h2.2
    have hnow := hle2 kv0 hkv0 pl0 hpl0 t h2.1
    omega

/-- Witness for C2 at a concrete admitted state. -/
theorem claim_C2_witness :
    (checkRateLimit [("b", [("minute", [5])])] "b" 7).2 = .allowed ∧
    (7 - 60 * 1000 ≤ 7 ∧ 7 ≤ 7) :=
  ⟨by decide,
    (claim_C2 [("b", [("minute", [5])])] "b" 7 (by decide)).1 (by decide)
      "minute" (60 * 1000) (Or.inl rfl) 7 (by decide)⟩

/-! ### Claim C3: the uptime division is not guarded -/

/-- Counterexample to C3 as stated: there is no `ε > 0` such that the quotient
computed on line 103 equals `totalRequests / max(uptimeHours, ε)` for every
clock value — at `now = startTime` the code divides by an unguarded zero. -/
theorem claim_C3_counterexample :
    ¬ ∃ ε : ℚ, 0 < ε ∧ ∀ (total startTime now : Nat),
        requestsPerHourRaw total (uptimeHoursOf startTime now)
          = (total : ℚ) / max (uptimeHoursOf startTime now) ε := by
  rintro ⟨ε, hε, hall⟩
  have h0 : uptimeHoursOf 0 0 = 0 := by simp [uptimeHoursOf]
  have h1 := hall 1 0 0
  rw [h0, max_eq_right hε.le] at h1
  simp only [requestsPerHourRaw, Nat.cast_one, div_zero] at h1
  exact absurd h1.symm (one_div_ne_zero (ne_of_gt hε))

/-- C3 as amended: `getUsageStats` divides `totalRequests` by `uptimeHours`
directly, with no `ε` guard — at `now = startTime` the divisor is zero, and
the unguarded quotient differs from every guarded one there. -/
theorem claim_C3 (t : Nat) (ε : ℚ) (hε : 0 < ε) :
    uptimeHoursOf t t = 0 ∧
    requestsPerHourRaw 1 (uptimeHoursOf t t) ≠ 1 / max (uptimeHoursOf t t) ε := by
  have h0 : uptimeHoursOf t t = 0 := by simp [uptimeHoursOf]
  refine ⟨h0, ?_⟩
  rw [h0, max_eq_right hε.le]
  simp only [requestsPerHourRaw, Nat.cast_one, div_zero]
  exact (one_div_ne_zero (ne_of_gt hε)).symm

/-- Witness for C3 at `t = 0`, `ε = 1`. -/
theorem claim_C3_witness :
    (0 : ℚ) < 1 ∧
    (uptimeHoursOf 0 0 = 0 ∧
      requestsPerHourRaw 1 (uptimeHoursOf 0 0) ≠ 1 / max (uptimeHoursOf 0 0) 1) :=
  ⟨by norm_num, claim_C3 0 1 (by norm_num)⟩

/-! ### Claim C6: the 11-request scenario -/

/-- The scenario request: a `POST` from `"1.2.3.4"` with a small valid prompt. -/
def scenarioEvent : HandlerEvent :=
  { httpMethod := "POST", path := "/.netlify/functions/ai-proxy",
    headers := [("x-forwarded-for", "1.2.3.4")],
    parsedBody := some { prompt := some (.str "hi"), conversation := none } }

/-- One scenario step: invoke the handler at clock value `k` and record the
response. -/
def scenarioStep (acc : ProcState × List HandlerResponse) (k : Nat) :
    ProcState × List HandlerResponse :=
  let r := handler acc.1 scenarioEvent (some "key") (.ok "data") k
  (r.1, acc.2 ++ [r.2])

/-- Eleven scenario requests at clock values `0, 1, ..., 10` (all within one
second), starting from the cold-start state. -/
def scenarioRun : ProcState × List HandlerResponse :=
  (List.range 11).foldl scenarioStep (initState, [])

/-- C6: with `minute.max = 10`, eleven requests from `"1.2.3.4"` within one
second yield ten `200` (allowed) responses followed by exactly one denial,
naming the minute tier with `retryAfter` 60 seconds. -/
theorem claim_C6 :
    scenarioRun.2.map (fun r => r.statusCode)
        = [200, 200, 200, 200, 200, 200, 200, 200, 200, 200, 429] ∧
    scenarioRun.2.getLast? = some
      { statusCode := 429,
        body := .rateLimited "Rate limit exceeded. Maximum 10 requests per minute." 60 } := by
  decide

/-! ### Claim C9: the stats snapshot is pure -/

/-- C9: `getUsageStats` with a fixed state agrees on every field except the
uptime-derived ones across two clock values, is fully identical for equal
clock values, and the handler's `GET /stats` branch leaves the state
untouched. -/
theorem claim_C9 (s : UsageStats) (rc : RequestCounts) (now1 now2 : Nat) :
    ((getUsageStats s rc now1).totalRequests = (getUsageStats s rc now2).totalRequests
      ∧ (getUsageStats s rc now1).uniqueIPs = (getUsageStats s rc now2).uniqueIPs
      ∧ (getUsageStats s rc now1).errors = (getUsageStats s rc now2).errors
      ∧ (getUsageStats s rc now1).rateLimitHits = (getUsageStats s rc now2).rateLimitHits
      ∧ (getUsageStats s rc now1).activeIPs = (getUsageStats s rc now2).activeIPs)
    ∧ (now1 = now2 → getUsageStats s rc now1 = getUsageStats s rc now2)
    ∧ (∀ (st : ProcState) (ev : HandlerEvent) (key : Option String) (up : UpstreamOutcome),
        ev.httpMethod = "GET" → pathIncludes ev.path "/stats" = true →
        (handler st ev key up now1).1 = st) := by
  refine ⟨⟨rfl, rfl, rfl, rfl, rfl⟩, ?_, ?_⟩
  · rintro rfl; rfl
  · intro st ev key up hget hpath
    simp [handler, hget, hpath]

/-- The stats request used by the C9 witness. -/
def evStats : HandlerEvent :=
  { httpMethod := "GET", path := "/.netlify/functions/ai-proxy/stats",
    headers := [], parsedBody := none }

/-- A nonempty telemetry state used by the C9 witness. -/
def statsC9 : UsageStats :=
  { totalRequests := 2, uniqueIPs := ["x"], startTime := 1, errors := 1, rateLimitHits := 1 }

/-- Witness for C9 at concrete inputs. -/
theorem claim_C9_witness :
    (getUsageStats statsC9 [("c", [])] 3).totalRequests
        = (getUsageStats statsC9 [("c", [])] 8).totalRequests ∧
    (handler initState evStats none .throws 3).1 = initState :=
  ⟨(claim_C9 statsC9 [("c", [])] 3 8).1.1,
    (claim_C9 statsC9 [("c", [])] 3 8).2.2 initState evStats none .throws rfl (by decide)⟩

/-! ### Claim C10: the empty-string prompt is rejected as invalid -/

/-- C10: on an admitted `POST` whose parsed body has `prompt: ""` — present
and of string type — the handler answers `400` with error
`"Invalid or missing prompt"`, because the check is JS falsiness. -/
theorem claim_C10 (st : ProcState) (ev : HandlerEvent) (apiKey : Option String)
    (upstream : UpstreamOutcome) (now : Nat) (b : BodyObj)
    (hpost : ev.httpMethod = "POST")
    (hb : ev.parsedBody = some b)
    (hp : b.prompt = some (.str ""))
    (hAdmit : (checkRateLimit (ledgerBeforeCheck st now) (extractIp ev.headers) now).2
        = .allowed) :
    (handler st ev apiKey upstream now).2 =
      { statusCode := 400, body := .errorMsg "Invalid or missing prompt" } := by
  rcases hcr : checkRateLimit (ledgerBeforeCheck st now) (extractIp ev.headers) now with ⟨rc1, res⟩
  have hres : res = .allowed := by rw [hcr] at hAdmit; exact hAdmit
  subst hres
  simp [handler, hpost, hb, hcr, hp, promptInvalid, promptTruthy, promptIsString]

/-- The request used by the C10 witness. -/
def evC10 : HandlerEvent :=
  { httpMethod := "POST", path := "/f", headers := [("x-forwarded-for", "9.9.9.9")],
    parsedBody := some { prompt := some (.str ""), conversation := none } }

/-- Witness for C10 at concrete inputs. -/
theorem claim_C10_witness :
    (checkRateLimit (ledgerBeforeCheck initState 5) (extractIp evC10.headers) 5).2
        = .allowed ∧
    (handler initState evC10 none .throws 5).2 =
      { statusCode := 400, body := .errorMsg "Invalid or missing prompt" } :=
  ⟨by decide,
    claim_C10 initState evC10 none .throws 5
      { prompt := some (.str ""), conversation := none } rfl rfl rfl (by decide)⟩

/-! ### Claim C1: invalid payloads are rejected with 400, but quota is
consumed at admission (the rate limiter runs before validation) -/

/-- The body of the C1 counterexample request: a 501-character prompt. -/
def bodyC1 : BodyObj :=
  { prompt := some (.str (String.mk (List.replicate 501 'a'))), conversation := none }

/-- The C1 counterexample request. -/
def evC1 : HandlerEvent :=
  { httpMethod := "POST", path := "/f", headers := [("x-forwarded-for", "1.2.3.4")],
    parsedBody := some bodyC1 }

set_option maxRecDepth 4000 in
/-- Counterexample to C1 as stated: from the cold-start state, a `POST` with a
501-character prompt returns `400 "Prompt too long (max 500 characters)"`, yet
the identity's minute-tier sequence length changes (0 before, 1 after) — the
rate limiter records the request before validation runs. -/
theorem claim_C1_counterexample :
    (handler initState evC1 (some "k") (.ok "d") 0).2 =
      { statusCode := 400, body := .errorMsg "Prompt too long (max 500 characters)" } ∧
    ¬ ((lookupPeriod
          (entryOf (handler initState evC1 (some "k") (.ok "d") 0).1.requestCounts "1.2.3.4")
          "minute").length
        = (lookupPeriod (entryOf initState.requestCounts "1.2.3.4") "minute").length) := by
  decide

/-- C1 as amended: on an admitted `POST`, a 501-character prompt yields
`400 "Prompt too long (max 500 characters)"` and an 11-entry conversation
yields `400 "Invalid conversation history"`, but the quota IS consumed: every
tier's recorded sequence for the identity ends with exactly one more timestamp
than its pruned pre-call sequence. -/
theorem claim_C1 (st : ProcState) (ev : HandlerEvent) (key : Option String)
    (up : UpstreamOutcome) (now : Nat) (b : BodyObj)
    (hpost : ev.httpMethod = "POST")
    (hb : ev.parsedBody = some b)
    (hpi : promptInvalid b.prompt = false)
    (hAdmit : (checkRateLimit (ledgerBeforeCheck st now) (extractIp ev.headers) now).2
        = .allowed) :
    (500 < promptLength b.prompt →
      (handler st ev key up now).2 =
        { statusCode := 400, body := .errorMsg "Prompt too long (max 500 characters)" })
    ∧ (promptLength b.prompt ≤ 500 → convInvalid b.conversation = true →
        (handler st ev key up now).2 =
          { statusCode := 400, body := .errorMsg "Invalid conversation history" })
    ∧ ((lookupPeriod
          (entryOf (handler st ev key up now).1.requestCounts (extractIp ev.headers))
          "minute").length
        = (prunedMinute (ledgerBeforeCheck st now) (extractIp ev.headers) now).length + 1
      ∧ (lookupPeriod
          (entryOf (handler st ev key up now).1.requestCounts (extractIp ev.headers))
          "hour").length
        = (prunedHour (ledgerBeforeCheck st now) (extractIp ev.headers) now).length + 1
      ∧ (lookupPeriod
          (entryOf (handler st ev key up now).1.requestCounts (extractIp ev.headers))
          "day").length
        = (prunedDay (ledgerBeforeCheck st now) (extractIp ev.headers) now).length + 1) := by
  obtain ⟨hm2, hh2, hd2⟩ := checkRateLimit_allowed_lookup hAdmit
  rcases hcr : checkRateLimit (ledgerBeforeCheck st now) (extractIp ev.headers) now with ⟨rc1, res⟩
  have hres : res = .allowed := by rw [hcr] at hAdmit; exact hAdmit
  subst hres
  rw [hcr] at hm2 hh2 hd2
  have hrcf : (handler st ev key up now).1.requestCounts = rc1 := by
    simp only [handler, hpost, hb, hcr]
    simp
    split_ifs <;> cases up <;> simp
  refine ⟨?_, ?_, ?_, ?_, ?_⟩
  · intro hlong
    simp [handler, hpost, hb, hcr, hpi, hlong]
  · intro hlen hconv
    have hlen2 : ¬ (500 < promptLength b.prompt) := Nat.not_lt.mpr hlen
    simp [handler, hpost, hb, hcr, hpi, hlen2, hconv]
  · rw [hrcf]
    simp only [Prod.fst] at hm2
    rw [hm2]
    simp
  · rw [hrcf]
    simp only [Prod.fst] at hh2
    rw [hh2]
    simp
  · rw [hrcf]
    simp only [Prod.fst] at hd2
    rw [hd2]
    simp

set_option maxRecDepth 4000 in
/-- Witness for C1 at a concrete admitted request with a 501-character prompt. -/
theorem claim_C1_witness :
    (checkRateLimit (ledgerBeforeCheck initState 0) (extractIp evC1.headers) 0).2
        = .allowed ∧
    (handler initState evC1 (some "k") (.ok "d") 0).2 =
      { statusCode := 400, body := .errorMsg "Prompt too long (max 500 characters)" } ∧
    (lookupPeriod
        (entryOf (handler initState evC1 (some "k") (.ok "d") 0).1.requestCounts
          (extractIp evC1.headers))
        "minute").length
      = (prunedMinute (ledgerBeforeCheck initState 0) (extractIp evC1.headers) 0).length + 1 :=
  ⟨by decide,
    (claim_C1 initState evC1 (some "k") (.ok "d") 0 bodyC1 rfl rfl (by decide) (by decide)).1
      (by decide),
    (claim_C1 initState evC1 (some "k") (.ok "d") 0 bodyC1 rfl rfl (by decide)
      (by decide)).2.2.1⟩

/-! ### Claims C7 and C8: telemetry counter changes per terminal state -/

/-- C7: a request that reaches the downstream call (for every upstream
outcome: success, error payload, or throw) increments `totalRequests` by
exactly 1 and leaves `rateLimitHits` unchanged; a request denied by the rate
limiter increments `rateLimitHits` by exactly 1 and leaves `totalRequests`
unchanged. -/
theorem claim_C7 (st : ProcState) (ev : HandlerEvent) (key : Option String)
    (up : UpstreamOutcome) (now : Nat) (b : BodyObj)
    (hpost : ev.httpMethod = "POST") :
    ((ev.parsedBody = some b →
      promptInvalid b.prompt = false →
      promptLength b.prompt ≤ 500 →
      convInvalid b.conversation = false →
      strTruthy key = true →
      (checkRateLimit (ledgerBeforeCheck st now) (extractIp ev.headers) now).2 = .allowed →
      (handler st ev key up now).1.usageStats.totalRequests
          = st.usageStats.totalRequests + 1
      ∧ (handler st ev key up now).1.usageStats.rateLimitHits
          = st.usageStats.rateLimitHits)
    ∧ (∀ period limit,
        (checkRateLimit (ledgerBeforeCheck st now) (extractIp ev.headers) now).2
            = .denied period limit →
        (handler st ev key up now).1.usageStats.rateLimitHits
            = st.usageStats.rateLimitHits + 1
        ∧ (handler st ev key up now).1.usageStats.totalRequests
            = st.usageStats.totalRequests)) := by
  constructor
  · intro hb hpi hlen hconv hkey hAdmit
    rcases hcr : checkRateLimit (ledgerBeforeCheck st now) (extractIp ev.headers) now
      with ⟨rc1, res⟩
    have hres : res = .allowed := by rw [hcr] at hAdmit; exact hAdmit
    subst hres
    have hlen2 : ¬ (500 < promptLength b.prompt) := Nat.not_lt.mpr hlen
    cases up <;>
      simp [handler, hpost, hb, hcr, hpi, hlen2, hconv, hkey, logUsage]
  · intro period limit hden
    rcases hcr : checkRateLimit (ledgerBeforeCheck st now) (extractIp ev.headers) now
      with ⟨rc1, res⟩
    have hres : res = .denied period limit := by rw [hcr] at hden; exact hden
    subst hres
    simp [handler, hpost, hcr]

/-- The valid request used by the C7 and C8 witnesses. -/
def evValid : HandlerEvent :=
  { httpMethod := "POST", path := "/f", headers := [("x-forwarded-for", "7.7.7.7")],
    parsedBody := some { prompt := some (.str "hello"), conversation := none } }

/-- Witness for C7: a concrete admitted request with an upstream error payload
adds one to `totalRequests` and keeps `rateLimitHits`. -/
theorem claim_C7_witness :
    (checkRateLimit (ledgerBeforeCheck initState 3) (extractIp evValid.headers) 3).2
        = .allowed ∧
    ((handler initState evValid (some "k") .errorField 3).1.usageStats.totalRequests
        = initState.usageStats.totalRequests + 1
      ∧ (handler initState evValid (some "k") .errorField 3).1.usageStats.rateLimitHits
        = initState.usageStats.rateLimitHits) :=
  ⟨by decide,
    (claim_C7 initState evValid (some "k") .errorField 3
        { prompt := some (.str "hello"), conversation := none } rfl).1
      rfl (by decide) (by decide) (by decide) (by decide) (by decide)⟩

/-- C8: when the downstream call of an admitted, valid request fails (error
payload or thrown exception), exactly one telemetry update with
`success = false` happens (`totalRequests` and `errors` each increase by 1)
and the ledger stays exactly as recorded at admission. -/
theorem claim_C8 (st : ProcState) (ev : HandlerEvent) (key : Option String)
    (up : UpstreamOutcome) (now : Nat) (b : BodyObj)
    (hpost : ev.httpMethod = "POST")
    (hb : ev.parsedBody = some b)
    (hpi : promptInvalid b.prompt = false)
    (hlen : promptLength b.prompt ≤ 500)
    (hconv : convInvalid b.conversation = false)
    (hkey : strTruthy key = true)
    (hAdmit : (checkRateLimit (ledgerBeforeCheck st now) (extractIp ev.headers) now).2
        = .allowed)
    (hup : up = .errorField ∨ up = .throws) :
    (handler st ev key up now).1.usageStats.totalRequests
        = st.usageStats.totalRequests + 1
    ∧ (handler st ev key up now).1.usageStats.errors = st.usageStats.errors + 1
    ∧ (handler st ev key up now).1.requestCounts
        = (checkRateLimit (ledgerBeforeCheck st now) (extractIp ev.headers) now).1 := by
  rcases hcr : checkRateLimit (ledgerBeforeCheck st now) (extractIp ev.headers) now
    with ⟨rc1, res⟩
  have hres : res = .allowed := by rw [hcr] at hAdmit; exact hAdmit
  subst hres
  have hlen2 : ¬ (500 < promptLength b.prompt) := Nat.not_lt.mpr hlen
  rcases hup with rfl | rfl <;>
    simp [handler, hpost, hb, hcr, hpi, hlen2, hconv, hkey, logUsage]

/-- Witness for C8: a concrete admitted request with a thrown downstream call. -/
theorem claim_C8_witness :
    (checkRateLimit (ledgerBeforeCheck initState 3) (extractIp evValid.headers) 3).2
        = .allowed ∧
    ((handler initState evValid (some "k") .throws 3).1.usageStats.totalRequests
        = initState.usageStats.totalRequests + 1
      ∧ (handler initState evValid (some "k") .throws 3).1.usageStats.errors
        = initState.usageStats.errors + 1
      ∧ (handler initState evValid (some "k") .throws 3).1.requestCounts
        = (checkRateLimit (ledgerBeforeCheck initState 3) (extractIp evValid.headers) 3).1) :=
  ⟨by decide,
    claim_C8 initState evValid (some "k") .throws 3
      { prompt := some (.str "hello"), conversation := none } rfl rfl (by decide) (by decide)
      (by decide) (by decide) (by decide) (Or.inr rfl)⟩
